import Mathlib

/-!
Shallow embedding of the All-Inclusive accessibility scanner (a Chrome
extension written in TypeScript) together with proofs about the claims of
its specification.

Conventions of the embedding:
* The DOM is modelled as a flat list of nodes in document (preorder)
  order, each holding its tag (lower case, as `tagName.toLowerCase()`),
  attribute list, computed style, bounding rectangle and a parent index.
  By convention index 0 is the `html` element (`document.body.parentElement`)
  and index 1 is the `body` element (`document.body`).
* Computed CSS color strings always take the browser form `rgb(...)` /
  `rgba(...)` / `transparent`; they are modelled by the inductive `CssColor`
  whose cases mirror the string tests performed by the source
  (`parseRgbColor`, comparisons with the literal `rgba(0, 0, 0, 0)`, the
  `includes('rgba')` test, and the alpha-channel regular expression).
* JavaScript numbers are modelled by `ℚ` where the source only compares
  and by `ℝ` inside the contrast mathematics (`Math.pow` with exponent 2.4).
* `Date.now()` is modelled by a parameter `now : Nat`: the wall clock as
  sampled during one (fast) scan, during which every call returns the same
  millisecond tick.
* Side effects of a rule (`element.setAttribute('data-violation', id)`) are
  modelled by explicit state passing: every rule returns, besides its
  violations, the list of `(node index, marker value)` attribute writes.
  No rule in the source reads `data-violation` during a scan, so the writes
  never feed back into rule evaluation.
* Ancestor walks (`parentElement` loops) are executed with fuel
  `nodes.length`; a well-formed DOM tree is acyclic with parent indices
  smaller than child indices, so the fuel never runs out on real documents.
-/

namespace AllInclusive

/-- JavaScript `String.prototype.toLowerCase` on ASCII data. -/
def lowerStr (s : String) : String := ⟨s.data.map Char.toLower⟩

/-- JavaScript `String.prototype.toUpperCase` on ASCII data (DOM `tagName`). -/
def upperStr (s : String) : String := ⟨s.data.map Char.toUpper⟩

/-- Characters treated as whitespace by `String.prototype.trim`. -/
def wsChar (c : Char) : Bool := c = ' ' || c = '\t' || c = '\n' || c = '\r'

/-- JavaScript `String.prototype.trim`. -/
def trimStr (s : String) : String :=
  ⟨((s.data.dropWhile wsChar).reverse.dropWhile wsChar).reverse⟩

/-- Substring test on character lists (`String.prototype.includes`). -/
def inclChars (pat : List Char) : List Char → Bool
  | [] => pat.isEmpty
  | c :: rest => pat.isPrefixOf (c :: rest) || inclChars pat rest

/-- JavaScript `s.includes(pat)`. -/
def strIncludes (s pat : String) : Bool := inclChars pat.data s.data

/-- JavaScript `s.substring(0, k)`. -/
def substrTo (k : Nat) (s : String) : String := ⟨s.data.take k⟩

/-- Array `join(sep)` of JavaScript. -/
def joinSep (sep : String) : List String → String
  | [] => ""
  | [x] => x
  | x :: y :: rest => x ++ sep ++ joinSep sep (y :: rest)

/-- WCAG principles (`WCAGPrinciple` enum of the source). -/
inductive WCAGPrinciple | perceivable | operable | understandable | robust
deriving DecidableEq

/-- WCAG conformance levels (`WCAGLevel` enum of the source). -/
inductive WCAGLevel | A | AA | AAA
deriving DecidableEq

/-- Severity of a violation (`Severity` enum of the source). -/
inductive Severity | critical | serious | moderate | minor
deriving DecidableEq

/-- Computed CSS color, the parsed form of the computed-style strings the
source manipulates (see the module comment). -/
inductive CssColor
  | transparent
  | rgb (r g b : Nat)
  | rgba (r g b : Nat) (a : ℚ)
  | named (s : String)
deriving DecidableEq

/-- One DOM element node. -/
structure Node where
  tag : String := "div"
  attrs : List (String × String) := []
  display : String := "block"
  visibility : String := "visible"
  opacity : ℚ := 1
  width : ℚ := 100
  height : ℚ := 100
  left : ℚ := 0
  top : ℚ := 0
  color : CssColor := CssColor.named "black"
  backgroundColor : CssColor := CssColor.transparent
  fontSize : ℚ := 16
  fontWeight : Nat := 400
  isHTMLElement : Bool := true
  textContent : String := ""
  outerHTML : String := ""
  parent : Option Nat := none
deriving DecidableEq

/-- A document: nodes in document order (index 0 is `html`, index 1 is
`body`) plus the rendering oracle behind `document.elementFromPoint`. -/
structure Doc where
  nodes : List Node
  elemFromPoint : ℚ → ℚ → Option Nat := fun _ _ => none

/-- Element `getAttribute`: the attribute value or `null` (`none`). -/
def getAttr (n : Node) (k : String) : Option String :=
  (n.attrs.find? (fun p => p.1 == k)).map (·.2)

/-- Element `hasAttribute`. -/
def hasAttr (n : Node) (k : String) : Bool := (getAttr n k).isSome

/-- Index of the parent element of node `i`. -/
def parentIdx (d : Doc) (i : Nat) : Option Nat := (d.nodes.get? i).bind (·.parent)

/-- Indices of all ancestors of node `i` (nearest first), with fuel. -/
def ancestorIdxsAux (d : Doc) : Nat → Nat → List Nat
  | 0, _ => []
  | fuel + 1, i =>
    match parentIdx d i with
    | none => []
    | some p => p :: ancestorIdxsAux d fuel p

/-- Indices of all ancestors of node `i` (nearest first). -/
def ancestorIdxs (d : Doc) (i : Nat) : List Nat := ancestorIdxsAux d d.nodes.length i

/-- Source `isElementVisible` (`src/utils/index.ts`): a non-`HTMLElement`
(for example an SVG element) is reported visible unconditionally. -/
def isElementVisible (n : Node) : Bool :=
  if !n.isHTMLElement then true
  else if n.display == "none" then false
  else if n.visibility == "hidden" then false
  else if n.opacity == 0 then false
  else if n.width == 0 || n.height == 0 then false
  else true

/-- Ancestor loop of `shouldCheckElement`: walks `parentElement` links,
stopping at `document.body.parentElement` (the `html` element, index 0);
reports `true` when some walked ancestor has `aria-hidden="true"` or a
`presentation`/`none` role. -/
def ancestorsDisqualifyAux (d : Doc) : Nat → Nat → Bool
  | 0, _ => false
  | fuel + 1, i =>
    match parentIdx d i with
    | none => false
    | some p =>
      if p = 0 then false
      else
        match d.nodes.get? p with
        | none => false
        | some pn =>
          if getAttr pn "aria-hidden" = some "true" then true
          else if getAttr pn "role" = some "presentation" ∨ getAttr pn "role" = some "none" then
            true
          else ancestorsDisqualifyAux d fuel p

/-- Ancestor disqualification of `shouldCheckElement` with full fuel. -/
def ancestorsDisqualify (d : Doc) (i : Nat) : Bool :=
  ancestorsDisqualifyAux d d.nodes.length i

/-- Source `shouldCheckElement` (`src/utils/index.ts`): the applicability
filter consulted by every rule. -/
def shouldCheckElement (d : Doc) (i : Nat) : Bool :=
  match d.nodes.get? i with
  | none => false
  | some n =>
    if getAttr n "role" = some "presentation" ∨ getAttr n "role" = some "none" then false
    else if getAttr n "aria-hidden" = some "true" then false
    else if ancestorsDisqualify d i then false
    else if !isElementVisible n then false
    else true

/-- One detected violation (the `Violation` interface of the source).
`element` is the locator: a CSS selector string. -/
structure Violation where
  id : String
  ruleId : String
  principle : WCAGPrinciple
  wcagCriteria : String
  level : WCAGLevel
  severity : Severity
  message : String
  description : String
  element : String
  htmlSnippet : String
  suggestion : String
  learnMoreUrl : String
deriving DecidableEq

/-- Per-principle counts of the scan summary. -/
structure ByPrinciple where
  perceivable : Nat
  operable : Nat
  understandable : Nat
  robust : Nat
deriving DecidableEq

/-- Summary block of a `ScanResult`. -/
structure Summary where
  total : Nat
  critical : Nat
  serious : Nat
  moderate : Nat
  minor : Nat
  byPrinciple : ByPrinciple
deriving DecidableEq

/-- Result of one scan (the `ScanResult` interface of the source). -/
structure ScanResult where
  url : String
  timestamp : Nat
  violations : List Violation
  summary : Summary
deriving DecidableEq

/-- Attribute writes (`setAttribute('data-violation', marker)`) performed
by a rule: pairs of node index and marker value. -/
abbrev Writes := List (Nat × String)

/-- An RGB triple whose channels are JavaScript numbers
(the `{ r, g, b }` objects of the source). -/
structure JsRgb where
  r : ℝ
  g : ℝ
  b : ℝ

/-- Linearization of one sRGB channel, inlined three times in the source
`getRelativeLuminance`. -/
noncomputable def linearizeChannel (c : ℝ) : ℝ :=
  let csRGB := c / 255
  if csRGB ≤ 0.03928 then csRGB / 12.92 else ((csRGB + 0.055) / 1.055) ^ (2.4 : ℝ)

/-- Source `getRelativeLuminance` (`src/utils/index.ts`). -/
noncomputable def getRelativeLuminance (c : JsRgb) : ℝ :=
  0.2126 * linearizeChannel c.r + 0.7152 * linearizeChannel c.g + 0.0722 * linearizeChannel c.b

/-- Source `getContrastRatio` (`src/utils/index.ts`). -/
noncomputable def getContrastRatio (c1 c2 : JsRgb) : ℝ :=
  let l1 := getRelativeLuminance c1
  let l2 := getRelativeLuminance c2
  let lighter := max l1 l2
  let darker := min l1 l2
  (lighter + 0.05) / (darker + 0.05)

/-- One registered accessibility rule.  The evaluation function of the
TypeScript contract may throw; this is modelled by `Except`, the source
rules themselves always succeed. -/
structure Rule where
  id : String
  name : String
  description : String
  principle : WCAGPrinciple
  wcagCriteria : String
  level : WCAGLevel
  check : Doc → Nat → Except String (List Violation × Writes)

/-- Locator selector built from a marker value. -/
def markerSelector (uid : String) : String := "[data-violation=\"" ++ uid ++ "\"]"

/-- Heading tags matched by `querySelectorAll('h1, h2, h3, h4, h5, h6')`. -/
def headingTags : List String := ["h1", "h2", "h3", "h4", "h5", "h6"]

/-- Heading elements of the document, with document indices. -/
def headingsOf (d : Doc) : List (Nat × Node) :=
  d.nodes.enum.filter (fun e => headingTags.contains e.2.tag)

/-- Heading level, `parseInt(tagName.charAt(1), 10)` of the source. -/
def levelOfTag (t : String) : Nat :=
  ((t.data.get? 1).map (fun c => c.toNat - 48)).getD 0

/-- One entry of the `headingLevels` array of the heading-structure rule:
level, document index, forEach index, and the node itself. -/
structure HeadingInfo where
  level : Nat
  idx : Nat
  index : Nat
  node : Node
deriving DecidableEq

/-- Empty-heading violation of the heading-structure rule. -/
def mkEmptyHeadingViol (now k : Nat) (n : Node) : Violation :=
  { id := "heading-empty-" ++ Nat.repr k
    ruleId := "heading-structure"
    principle := WCAGPrinciple.perceivable
    wcagCriteria := "2.4.6"
    level := WCAGLevel.AA
    severity := Severity.serious
    message := "Empty heading found"
    description := "An " ++ upperStr n.tag ++
      " heading has no text content. Empty headings confuse screen reader users."
    element := markerSelector ("violation-" ++ Nat.repr now ++ "-" ++ Nat.repr k ++ "-empty")
    htmlSnippet := substrTo 200 n.outerHTML
    suggestion := "Add descriptive text to the heading or remove it if it serves no purpose."
    learnMoreUrl := "https://www.w3.org/WAI/WCAG22/Understanding/info-and-relationships.html" }

/-- Empty-heading pass of the heading-structure rule: performed before the
applicability filter, one violation per empty heading. -/
def emptyHeadingEntries (d : Doc) (now : Nat) : List (Violation × (Nat × String)) :=
  (headingsOf d).enum.filterMap (fun e =>
    if trimStr e.2.2.textContent == "" then
      some (mkEmptyHeadingViol now e.1 e.2.2,
        (e.2.1, "violation-" ++ Nat.repr now ++ "-" ++ Nat.repr e.1 ++ "-empty"))
    else none)

/-- The `headingLevels` array: non-empty headings surviving the
applicability filter, in document order. -/
def headingSequence (d : Doc) : List HeadingInfo :=
  (headingsOf d).enum.filterMap (fun e =>
    if trimStr e.2.2.textContent == "" then none
    else if !shouldCheckElement d e.2.1 then none
    else some ⟨levelOfTag e.2.2.tag, e.2.1, e.1, e.2.2⟩)

/-- Missing-H1 violation of the heading-structure rule. -/
def mkMissingH1Viol (now : Nat) (first : HeadingInfo) : Violation :=
  { id := "heading-missing-h1"
    ruleId := "heading-structure"
    principle := WCAGPrinciple.perceivable
    wcagCriteria := "1.3.1"
    level := WCAGLevel.A
    severity := Severity.serious
    message := "Page missing H1 heading"
    description := "This page has no H1 heading. The H1 should be used for the main page title to help users understand the page structure."
    element := markerSelector ("violation-" ++ Nat.repr now ++ "-no-h1")
    htmlSnippet := "First heading: " ++ substrTo 200 first.node.outerHTML
    suggestion := "Add an H1 heading at the top of the page that describes the main content or purpose of the page."
    learnMoreUrl := "https://www.w3.org/WAI/WCAG22/Understanding/info-and-relationships.html" }

/-- Missing-H1 pass: one serious violation anchored to the first heading
when the filtered sequence is non-empty and has no level-1 entry. -/
def missingH1Part (d : Doc) (now : Nat) : List (Violation × (Nat × String)) :=
  match headingSequence d with
  | [] => []
  | first :: rest =>
    if ((first :: rest).filter (fun h => h.level == 1)).length = 0 then
      [(mkMissingH1Viol now first, (first.idx, "violation-" ++ Nat.repr now ++ "-no-h1"))]
    else []

/-- Multiple-H1 violation of the heading-structure rule. -/
def mkMultipleH1Viol (now count : Nat) (h : HeadingInfo) : Violation :=
  { id := "heading-multiple-h1-" ++ Nat.repr h.index
    ruleId := "heading-structure"
    principle := WCAGPrinciple.perceivable
    wcagCriteria := "1.3.1"
    level := WCAGLevel.A
    severity := Severity.moderate
    message := "Multiple H1 headings found"
    description := "This page has " ++ Nat.repr count ++
      " H1 headings. Best practice is to have only one H1 per page to clearly identify the main topic."
    element := markerSelector
      ("violation-" ++ Nat.repr now ++ "-" ++ Nat.repr h.index ++ "-multiple-h1")
    htmlSnippet := substrTo 200 h.node.outerHTML
    suggestion := "Change additional H1 headings to H2 or lower levels based on their relationship to the main heading."
    learnMoreUrl := "https://www.w3.org/WAI/WCAG22/Understanding/info-and-relationships.html" }

/-- Multiple-H1 pass: one moderate violation per level-1 heading after the
first, when more than one is present. -/
def multipleH1Part (d : Doc) (now : Nat) : List (Violation × (Nat × String)) :=
  let h1s := (headingSequence d).filter (fun h => h.level == 1)
  if 1 < h1s.length then
    (h1s.drop 1).map (fun h =>
      (mkMultipleH1Viol now h1s.length h,
        (h.idx, "violation-" ++ Nat.repr now ++ "-" ++ Nat.repr h.index ++ "-multiple-h1")))
  else []

/-- Skipped-level violation of the heading-structure rule, citing the
previous and the current heading level. -/
def mkSkippedViol (now : Nat) (prev cur : HeadingInfo) : Violation :=
  { id := "heading-skipped-level-" ++ Nat.repr cur.index
    ruleId := "heading-structure"
    principle := WCAGPrinciple.perceivable
    wcagCriteria := "1.3.1"
    level := WCAGLevel.A
    severity := Severity.moderate
    message := "Heading level skipped from H" ++ Nat.repr prev.level ++ " to H" ++
      Nat.repr cur.level
    description := "This H" ++ Nat.repr cur.level ++ " heading follows an H" ++
      Nat.repr prev.level ++ " heading, skipping " ++
      Nat.repr (cur.level - prev.level - 1) ++
      " level(s). This breaks the document outline and confuses screen reader users."
    element := markerSelector
      ("violation-" ++ Nat.repr now ++ "-" ++ Nat.repr cur.index ++ "-skipped")
    htmlSnippet := substrTo 200 cur.node.outerHTML
    suggestion := "Use H" ++ Nat.repr (prev.level + 1) ++
      " instead, or restructure your headings to follow a logical hierarchy (H1 → H2 → H3, etc.)."
    learnMoreUrl := "https://www.w3.org/WAI/WCAG22/Understanding/info-and-relationships.html" }

/-- Skipped-level loop of the heading-structure rule: walk consecutive
pairs of the filtered sequence, emitting one moderate violation whenever a
level is skipped (`level[i] - level[i-1] > 1`, here in `Nat`
subtraction-free form). -/
def skipLoop (now : Nat) : HeadingInfo → List HeadingInfo → List (Violation × (Nat × String))
  | _, [] => []
  | prev, cur :: rest =>
    if prev.level + 1 < cur.level then
      (mkSkippedViol now prev cur,
          (cur.idx, "violation-" ++ Nat.repr now ++ "-" ++ Nat.repr cur.index ++ "-skipped")) ::
        skipLoop now cur rest
    else skipLoop now cur rest

/-- Skipped-level pass over the whole filtered sequence. -/
def skippedPart (now : Nat) : List HeadingInfo → List (Violation × (Nat × String))
  | [] => []
  | first :: rest => skipLoop now first rest

/-- Evaluation of the `heading-structure` rule: the four passes push their
violations in source order (empty headings during the collection loop, then
missing H1, then multiple H1s, then skipped levels). -/
def headingStructureCheck (d : Doc) (now : Nat) : List Violation × Writes :=
  let all := emptyHeadingEntries d now ++ missingH1Part d now ++ multipleH1Part d now ++
    skippedPart now (headingSequence d)
  (all.map (·.1), all.map (·.2))

/-- Elements matched by `querySelectorAll('[id]')`. -/
def elementsWithId (d : Doc) : List (Nat × Node) :=
  d.nodes.enum.filter (fun e => hasAttr e.2 "id")

/-- Identifier-carrying elements that enter the duplicate-identifier map:
truthy `id` and passing the applicability filter, keyed by identifier. -/
def idPairs (d : Doc) : List (String × (Nat × Node)) :=
  (elementsWithId d).filterMap (fun e =>
    match getAttr e.2 "id" with
    | none => none
    | some s =>
      if s != "" && shouldCheckElement d e.1 then some (s, e) else none)

/-- Insertion into the `Map<string, Element[]>` of the source, modelled by
an insertion-ordered association list: a fresh key is appended at the end,
an existing key has the element appended to its group. -/
def insertAppend {α : Type} : List (String × List α) → String → α → List (String × List α)
  | [], k, v => [(k, [v])]
  | (k', vs) :: rest, k, v =>
    if k' == k then (k', vs ++ [v]) :: rest else (k', vs) :: insertAppend rest k v

/-- The populated map, iterated in key-insertion order as a JavaScript
`Map` is. -/
def buildGroups {α : Type} (xs : List (String × α)) : List (String × List α) :=
  xs.foldl (fun acc kv => insertAppend acc kv.1 kv.2) []

/-- The `className`-based entry for one group member in the
duplicate-identifier description (`${idx + 1}. <${tag}${classes}>`). -/
def dupMemberEntry (j : Nat) (n : Node) : String :=
  let classes :=
    match getAttr n "class" with
    | some c => if c != "" then "." ++ c else ""
    | none => ""
  Nat.repr (j + 1) ++ ". <" ++ n.tag ++ classes ++ ">"

/-- Duplicate-identifier violation for one group. -/
def mkDupViol (now : Nat) (idVal : String) (members : List (Nat × Node)) : Violation :=
  let elementLocations := joinSep ", " (members.enum.map (fun e => dupMemberEntry e.1 e.2.2))
  { id := "duplicate-id-" ++ idVal
    ruleId := "valid-html"
    principle := WCAGPrinciple.robust
    wcagCriteria := "4.1.1"
    level := WCAGLevel.A
    severity := Severity.serious
    message := "Duplicate ID: \"" ++ idVal ++ "\""
    description := "The ID \"" ++ idVal ++ "\" is used " ++ Nat.repr members.length ++
      " times on the page. IDs must be unique. Found in: " ++ elementLocations
    element := markerSelector ("violation-" ++ Nat.repr now ++ "-" ++ idVal)
    htmlSnippet := substrTo 200 (((members.head?).map (fun e => e.2.outerHTML)).getD "")
    suggestion := "Ensure each ID is used only once per page. Consider using classes for styling multiple elements, or add unique suffixes to dynamically generated IDs."
    learnMoreUrl := "https://www.w3.org/WAI/WCAG22/Understanding/parsing.html" }

/-- Evaluation of the `valid-html` rule: one serious violation per
identifier shared by two or more filtered elements, anchored (its marker
written) to the first member of the group. -/
def validHTMLCheck (d : Doc) (now : Nat) : List Violation × Writes :=
  let entries := (buildGroups (idPairs d)).filterMap (fun g =>
    if 1 < g.2.length then
      some (mkDupViol now g.1 g.2,
        ((((g.2.head?).map (fun e => e.1)).getD 0), "violation-" ++ Nat.repr now ++ "-" ++ g.1))
    else none)
  (entries.map (·.1), entries.map (·.2))

/-- JavaScript `element.closest('label')`: the element itself or the
nearest ancestor with tag `label`. -/
def closestLabelNode (d : Doc) (i : Nat) : Option Node :=
  match d.nodes.get? i with
  | none => none
  | some n =>
    if n.tag == "label" then some n
    else
      ((ancestorIdxs d i).filterMap (fun p =>
        match d.nodes.get? p with
        | some pn => if pn.tag == "label" then some pn else none
        | none => none)).head?

/-- Elements matched by the form-input selector of the understandable
rules, which also excludes `reset` and `image` input types. -/
def formInputsOf (d : Doc) : List (Nat × Node) :=
  d.nodes.enum.filter (fun e =>
    (e.2.tag == "input" &&
        !(["hidden", "submit", "button", "reset", "image"].any
          (fun t => getAttr e.2 "type" == some t))) ||
      e.2.tag == "textarea" || e.2.tag == "select")

/-- First `label[for=idVal]` of the document (`querySelector`). -/
def firstLabelFor (d : Doc) (idVal : String) : Option Node :=
  (d.nodes.filter (fun m => m.tag == "label" && getAttr m "for" == some idVal)).head?

/-- Label text extraction of the `required-fields` rule: the referenced
label when the control has a truthy `id`, otherwise the closest `label`
ancestor; missing labels give the empty string. -/
def requiredLabelText (d : Doc) (i : Nat) (n : Node) : String :=
  match getAttr n "id" with
  | some s =>
    if s != "" then ((firstLabelFor d s).map (fun m => trimStr m.textContent)).getD ""
    else ((closestLabelNode d i).map (fun m => trimStr m.textContent)).getD ""
  | none => ((closestLabelNode d i).map (fun m => trimStr m.textContent)).getD ""

/-- The case-insensitive test `/\*|required|mandatory|obligatory/i` on the
label text. -/
def hasVisualRequired (labelText : String) : Bool :=
  let lt := lowerStr labelText
  strIncludes labelText "*" || strIncludes lt "required" || strIncludes lt "mandatory" ||
    strIncludes lt "obligatory"

/-- Body of the `inputs.forEach` loop of the `required-fields` rule. -/
def rfEntry (d : Doc) (now k i : Nat) (n : Node) : Option (Violation × (Nat × String)) :=
  if !shouldCheckElement d i then none
  else
    let hasRequiredAttribute := hasAttr n "required"
    let hasAriaRequired := getAttr n "aria-required" == some "true"
    let labelText := requiredLabelText d i n
    if hasVisualRequired labelText && !hasRequiredAttribute && !hasAriaRequired then
      let uid := "violation-" ++ Nat.repr now ++ "-" ++ Nat.repr k ++ "-required"
      let inputName := (getAttr n "name").getD "unknown"
      let typeStr := (getAttr n "type").getD n.tag
      some
        ({ id := "required-field-" ++ Nat.repr k
           ruleId := "required-fields"
           principle := WCAGPrinciple.understandable
           wcagCriteria := "3.3.2"
           level := WCAGLevel.A
           severity := Severity.serious
           message := "Required field not programmatically indicated"
           description := "This " ++ typeStr ++ " input (name: \"" ++ inputName ++
             "\") appears to be required based on its label (\"" ++ substrTo 50 labelText ++
             "...\"), but does not have the required attribute or aria-required=\"true\". Screen reader users may not know this field is required."
           element := markerSelector uid
           htmlSnippet := substrTo 200 n.outerHTML
           suggestion := "Add the \"required\" attribute to the input element, or use aria-required=\"true\". This ensures screen readers announce that the field is required."
           learnMoreUrl := "https://www.w3.org/WAI/WCAG22/Understanding/labels-or-instructions.html" },
          (i, uid))
    else none

/-- Evaluation of the `required-fields` rule
(`src/rules/understandable/index.ts`). -/
def requiredFieldsCheck (d : Doc) (now : Nat) : List Violation × Writes :=
  let entries := (formInputsOf d).enum.filterMap (fun e => rfEntry d now e.1 e.2.1 e.2.2)
  (entries.map (·.1), entries.map (·.2))

/-- Rule record for `required-fields` (exported by the understandable
rules module; see `scanPage` for which modules the runner imports). -/
def requiredFields : Rule :=
  { id := "required-fields"
    name := "Required fields must be clearly indicated"
    description := "Required form fields must be programmatically indicated and not rely solely on visual cues"
    principle := WCAGPrinciple.understandable
    wcagCriteria := "3.3.2"
    level := WCAGLevel.A
    check := fun d now => Except.ok (requiredFieldsCheck d now) }

/-- The `allRules.forEach` loop of `scanPage` with its per-rule
`try`/`catch`: a rule whose evaluation fails contributes no violations (and
no attribute writes), and the loop continues. -/
def runChecked (rules : List Rule) (d : Doc) (now : Nat) : List Violation × Writes :=
  let outs := rules.map (fun r =>
    match r.check d now with
    | Except.ok o => o
    | Except.error _ => ([], []))
  ((outs.map (·.1)).flatten, (outs.map (·.2)).flatten)

/-- Summary statistics of `scanPage`. -/
def mkSummary (violations : List Violation) : Summary :=
  { total := violations.length
    critical := (violations.filter (fun v => v.severity == Severity.critical)).length
    serious := (violations.filter (fun v => v.severity == Severity.serious)).length
    moderate := (violations.filter (fun v => v.severity == Severity.moderate)).length
    minor := (violations.filter (fun v => v.severity == Severity.minor)).length
    byPrinciple :=
      { perceivable :=
          (violations.filter (fun v => v.principle == WCAGPrinciple.perceivable)).length
        operable := (violations.filter (fun v => v.principle == WCAGPrinciple.operable)).length
        understandable :=
          (violations.filter (fun v => v.principle == WCAGPrinciple.understandable)).length
        robust := (violations.filter (fun v => v.principle == WCAGPrinciple.robust)).length } }

/-- Removal of the `data-violation` markers of the previous scan
(`element.removeAttribute('data-violation')` over
`querySelectorAll('[data-violation]')`). -/
def clearMarkers (d : Doc) : Doc :=
  { d with nodes := d.nodes.map (fun n =>
      { n with attrs := n.attrs.filter (fun p => p.1 != "data-violation") }) }

/-- Source `scanPage` generalized over the rule list (the source closes
over the fixed `allRules`); returns the `ScanResult` together with the
attribute writes the rules performed on the (previously cleared)
document. -/
def scanPageWithFull (rules : List Rule) (d : Doc) (url : String) (now : Nat) :
    ScanResult × Writes :=
  let cleared := clearMarkers d
  let out := runChecked rules cleared now
  ({ url := url, timestamp := now, violations := out.1, summary := mkSummary out.1 }, out.2)

/-- The `ScanResult` of a scan with an arbitrary rule list. -/
def scanPageWith (rules : List Rule) (d : Doc) (url : String) (now : Nat) : ScanResult :=
  (scanPageWithFull rules d url now).1

/-- The export document of `handleExport` in the popup script. -/
structure ExportData where
  timestamp : String
  url : String
  summary : Summary
  violations : List Violation
deriving DecidableEq

/-- Source `handleExport` (popup script): no-op without a current result;
otherwise the export carries a freshly minted ISO timestamp (here the
parameter `nowIso`, the value of `new Date().toISOString()` at export
time), the result url with empty-string fallback to "unknown", and the
summary and violations of the current `ScanResult`. -/
def handleExport (current : Option ScanResult) (nowIso : String) : Option ExportData :=
  match current with
  | none => none
  | some r =>
    some
      { timestamp := nowIso
        url := if r.url == "" then "unknown" else r.url
        summary := r.summary
        violations := r.violations }

/-- The `html` root element (index 0 by convention). -/
def htmlNode : Node := { tag := "html", parent := none }

/-- The `body` element (index 1 by convention). -/
def bodyNode : Node := { tag := "body", parent := some 0 }

/-- Document whose heading sequence has levels 1, 2, 4 (all non-empty and
applicable). -/
def heading124Doc : Doc :=
  { nodes :=
      [htmlNode, bodyNode,
        { tag := "h1", textContent := "Page Title", outerHTML := "<h1>Page Title</h1>",
          parent := some 1 },
        { tag := "h2", textContent := "Section", outerHTML := "<h2>Section</h2>",
          parent := some 1 },
        { tag := "h4", textContent := "Deep", outerHTML := "<h4>Deep</h4>",
          parent := some 1 }] }

/-- First of two `div` elements sharing the identifier `dup`. -/
def dupNodeA : Node :=
  { tag := "div", attrs := [("id", "dup")], outerHTML := "<div id=dup></div>",
    parent := some 1 }

/-- Second of two `div` elements sharing the identifier `dup`. -/
def dupNodeB : Node := { tag := "div", attrs := [("id", "dup"), ("class", "x")], parent := some 1 }

/-- Document with two visible `div` elements sharing the identifier
`dup`. -/
def dupIdDoc : Doc := { nodes := [htmlNode, bodyNode, dupNodeA, dupNodeB] }

/-- An SVG element (not an `HTMLElement`) that is style-hidden and
zero-sized. -/
def svgNode : Node :=
  { tag := "svg", isHTMLElement := false, display := "none", width := 0, height := 0,
    opacity := 0, parent := some 1 }

/-- Document containing the hidden zero-sized SVG element. -/
def svgDoc : Doc := { nodes := [htmlNode, bodyNode, svgNode] }

/-- Empty document used by witnesses. -/
def emptyDoc : Doc := { nodes := [] }

/-- A rule whose evaluation always throws. -/
def errRule : Rule :=
  { id := "always-throws"
    name := "always throws"
    description := "rule used to exercise the per-rule try/catch of the runner"
    principle := WCAGPrinciple.robust
    wcagCriteria := "4.1.1"
    level := WCAGLevel.A
    check := fun _ _ => Except.error "boom" }

/-- A concrete `ScanResult` with an empty url. -/
def emptyUrlResult : ScanResult :=
  { url := "", timestamp := 1000, violations := [], summary := mkSummary [] }

/-- Recognizer for the identifier shape of skipped-level violations
(prefix `heading-skipped-level-`, a 22-character string). -/
def isSkippedId (s : String) : Bool := s.data.take 22 == "heading-skipped-level-".data

/-- Consecutive pairs `(l[i-1], l[i])` of a list. -/
def consecutivePairs {α : Type} (l : List α) : List (α × α) := l.zip l.tail

/-- Members of one duplicate-identifier group: the filtered
identifier-carrying elements with identifier `v`, in document order. -/
def dupMembers (d : Doc) (v : String) : List (Nat × Node) :=
  ((idPairs d).filter (fun p => p.1 == v)).map Prod.snd

/-! Theorems.  Shared helper lemmas come first; one theorem per claim of
the specification (with witnesses and counterexamples where required). -/

/-- Linearized channels are nonnegative for nonnegative inputs. -/
theorem linearizeChannel_nonneg (c : ℝ) (h : 0 ≤ c) : 0 ≤ linearizeChannel c := by
  unfold linearizeChannel
  dsimp only
  split
  · positivity
  · positivity

/-- Relative luminance is nonnegative on in-range colors. -/
theorem getRelativeLuminance_nonneg (c : JsRgb) (hr : 0 ≤ c.r) (hg : 0 ≤ c.g)
    (hb : 0 ≤ c.b) : 0 ≤ getRelativeLuminance c := by
  unfold getRelativeLuminance
  have h1 := linearizeChannel_nonneg c.r hr
  have h2 := linearizeChannel_nonneg c.g hg
  have h3 := linearizeChannel_nonneg c.b hb
  positivity

/-- Luminance of pure black is zero. -/
theorem lum_black : getRelativeLuminance ⟨0, 0, 0⟩ = 0 := by
  unfold getRelativeLuminance linearizeChannel
  norm_num

/-- Luminance of pure white is one. -/
theorem lum_white : getRelativeLuminance ⟨255, 255, 255⟩ = 1 := by
  unfold getRelativeLuminance linearizeChannel
  dsimp only
  rw [if_neg (by norm_num)]
  rw [show ((255 : ℝ) / 255 + 0.055) / 1.055 = 1 by norm_num, Real.one_rpow]
  norm_num

/-- C1: the contrast evaluator computes the WCAG ratio exactly as
specified — each 0-255 channel is divided by 255, linearized by `c/12.92`
when at most 0.03928 and `((c+0.055)/1.055)^2.4` otherwise, combined as
`0.2126*R + 0.7152*G + 0.0722*B` into a relative luminance, and the ratio
is `(max(L1,L2)+0.05)/(min(L1,L2)+0.05)`; consequently
`getContrastRatio c c = 1` for every in-range color `c`, and
`getContrastRatio black white` equals 21 (hence lies within 0.01 of 21). -/
theorem contrast_ratio_wcag (r g b : ℝ) (hr : 0 ≤ r) (hg : 0 ≤ g) (hb : 0 ≤ b) :
    (getRelativeLuminance ⟨r, g, b⟩ =
        0.2126 * (if r / 255 ≤ 0.03928 then r / 255 / 12.92
          else ((r / 255 + 0.055) / 1.055) ^ (2.4 : ℝ)) +
          0.7152 * (if g / 255 ≤ 0.03928 then g / 255 / 12.92
            else ((g / 255 + 0.055) / 1.055) ^ (2.4 : ℝ)) +
          0.0722 * (if b / 255 ≤ 0.03928 then b / 255 / 12.92
            else ((b / 255 + 0.055) / 1.055) ^ (2.4 : ℝ))) ∧
      getContrastRatio ⟨r, g, b⟩ ⟨r, g, b⟩ = 1 ∧
      getContrastRatio ⟨0, 0, 0⟩ ⟨255, 255, 255⟩ = 21 ∧
      |getContrastRatio ⟨0, 0, 0⟩ ⟨255, 255, 255⟩ - 21| ≤ 1 / 100 := by
  have hbw : getContrastRatio ⟨0, 0, 0⟩ ⟨255, 255, 255⟩ = 21 := by
    unfold getContrastRatio
    rw [lum_black, lum_white]
    norm_num
  refine ⟨rfl, ?_, hbw, by rw [hbw]; norm_num⟩
  unfold getContrastRatio
  have hL := getRelativeLuminance_nonneg ⟨r, g, b⟩ hr hg hb
  dsimp only
  rw [max_self, min_self]
  exact div_self (by linarith)

/-- Witness for C1 at concrete inputs. -/
theorem contrast_ratio_wcag_witness :
    getContrastRatio ⟨100, 100, 100⟩ ⟨100, 100, 100⟩ = 1 ∧
      getContrastRatio ⟨0, 0, 0⟩ ⟨255, 255, 255⟩ = 21 :=
  ⟨(contrast_ratio_wcag 100 100 100 (by norm_num) (by norm_num) (by norm_num)).2.1,
    (contrast_ratio_wcag 0 0 0 le_rfl le_rfl le_rfl).2.2.1⟩

/-- C10: for every node that is not an HTML element the visibility check
returns true unconditionally, so the applicability filter never excludes
such a node on visual-rendering grounds; it is excluded exactly when its
own role is presentation/none, its own aria-hidden flag is set, or an
ancestor carries one of those properties. -/
theorem non_html_visibility_default (d : Doc) (i : Nat) (n : Node)
    (hn : d.nodes.get? i = some n) (hh : n.isHTMLElement = false) :
    isElementVisible n = true ∧
      (shouldCheckElement d i = false ↔
        ((getAttr n "role" = some "presentation" ∨ getAttr n "role" = some "none") ∨
          getAttr n "aria-hidden" = some "true" ∨ ancestorsDisqualify d i = true)) := by
  have hvis : isElementVisible n = true := by simp [isElementVisible, hh]
  refine ⟨hvis, ?_⟩
  rw [shouldCheckElement, hn]
  by_cases h1 : getAttr n "role" = some "presentation" ∨ getAttr n "role" = some "none" <;>
    by_cases h2 : getAttr n "aria-hidden" = some "true" <;>
      by_cases h3 : ancestorsDisqualify d i = true <;>
        simp [h1, h2, h3, hvis]

/-- Witness for C10: the hidden zero-sized SVG element is still reported
visible and passes the applicability filter. -/
theorem non_html_visibility_default_witness :
    isElementVisible svgNode = true ∧ shouldCheckElement svgDoc 2 = true :=
  ⟨(non_html_visibility_default svgDoc 2 svgNode rfl rfl).1, by decide⟩

/-- C8: if a rule's evaluation function throws during a scan, the runner
catches it and continues — the scan of the rule list with the failing rule
returns exactly the `ScanResult` of the same list without it. -/
theorem runner_isolates_rule_failure (pre post : List Rule) (bad : Rule) (d : Doc)
    (url : String) (now : Nat) (msg : String)
    (h : bad.check (clearMarkers d) now = Except.error msg) :
    scanPageWith (pre ++ bad :: post) d url now = scanPageWith (pre ++ post) d url now := by
  simp only [scanPageWith, scanPageWithFull, runChecked, List.map_append, List.map_cons, h,
    List.flatten_append, List.flatten_cons, List.nil_append]

/-- Witness for C8: a concrete always-throwing rule contributes nothing. -/
theorem runner_isolates_rule_failure_witness :
    scanPageWith [errRule] emptyDoc "u" 0 = scanPageWith [] emptyDoc "u" 0 ∧
      errRule.check (clearMarkers emptyDoc) 0 = Except.error "boom" :=
  ⟨runner_isolates_rule_failure [] [] errRule emptyDoc "u" 0 "boom" rfl, rfl⟩

/-- C9 counterexample: the export of a `ScanResult` does not carry the
same timestamp and url values as the result — the exported url of an
empty-url result is `"unknown"`, and the exported timestamp is the export
time (two exports of the same result differ). -/
theorem export_not_lossless_counterexample :
    handleExport (some emptyUrlResult) "2026-01-01T00:00:00.000Z" =
        some { timestamp := "2026-01-01T00:00:00.000Z", url := "unknown",
               summary := mkSummary [], violations := [] } ∧
      emptyUrlResult.url = "" ∧ ("unknown" : String) ≠ "" ∧
      handleExport (some emptyUrlResult) "A" ≠ handleExport (some emptyUrlResult) "B" :=
  ⟨rfl, rfl, by decide, by decide⟩

/-- C9 (amended): the export mirrors summary and violations
field-for-field and mirrors a non-empty url, while an empty url is
exported as `"unknown"` and the timestamp is freshly minted at export
time rather than copied from the `ScanResult`. -/
theorem export_fields_mirrored (r : ScanResult) (nowIso : String) :
    ∃ e, handleExport (some r) nowIso = some e ∧ e.summary = r.summary ∧
      e.violations = r.violations ∧ e.timestamp = nowIso ∧
      (r.url ≠ "" → e.url = r.url) ∧ (r.url = "" → e.url = "unknown") := by
  refine ⟨_, rfl, rfl, rfl, rfl, ?_, ?_⟩
  · intro h
    simp only [handleExport]
    rw [if_neg (by simpa using h)]
  · intro h
    simp only [handleExport]
    rw [if_pos (by simpa using h)]

/-- Witness for C9 (amended) at a concrete result with non-empty url. -/
theorem export_fields_mirrored_witness :
    ∃ e, handleExport
        (some { url := "http://x", timestamp := 1, violations := [], summary := mkSummary [] })
        "T" = some e ∧ e.url = "http://x" := by
  obtain ⟨e, he, _, _, _, hu, _⟩ := export_fields_mirrored
    { url := "http://x", timestamp := 1, violations := [], summary := mkSummary [] } "T"
  exact ⟨e, he, hu (by decide)⟩

/-- Identifiers of skipped-level violations satisfy the recognizer. -/
theorem isSkippedId_skipped (t : String) : isSkippedId ("heading-skipped-level-" ++ t) = true := by
  simp only [isSkippedId, String.data_append]
  rw [List.take_left' (by decide : ("heading-skipped-level-".data).length = 22)]
  simp

/-- Identifiers of empty-heading violations never satisfy the
recognizer. -/
theorem isSkippedId_empty (t : String) : isSkippedId ("heading-empty-" ++ t) = false := by
  simp only [isSkippedId, String.data_append]
  rw [beq_eq_false_iff_ne]
  intro hEq
  have h14 := congrArg (List.take 14) hEq
  simp only [List.take_take] at h14
  norm_num at h14
  exact absurd h14.1 (by decide)

/-- Identifiers of multiple-H1 violations never satisfy the recognizer. -/
theorem isSkippedId_multiple (t : String) :
    isSkippedId ("heading-multiple-h1-" ++ t) = false := by
  simp only [isSkippedId, String.data_append]
  rw [beq_eq_false_iff_ne]
  intro hEq
  have h20 := congrArg (List.take 20) hEq
  simp only [List.take_take] at h20
  norm_num at h20
  exact absurd h20.1 (by decide)

/-- The skipped-level loop is the filterMap of the skip test over
consecutive pairs. -/
theorem skipLoop_eq (now : Nat) :
    ∀ (prev : HeadingInfo) (rest : List HeadingInfo),
      skipLoop now prev rest =
        ((prev :: rest).zip rest).filterMap (fun pc =>
          if pc.1.level + 1 < pc.2.level then
            some (mkSkippedViol now pc.1 pc.2,
              (pc.2.idx,
                "violation-" ++ Nat.repr now ++ "-" ++ Nat.repr pc.2.index ++ "-skipped"))
          else none)
  | _, [] => by simp [skipLoop]
  | prev, cur :: rest => by
    rw [List.zip_cons_cons, List.filterMap_cons, ← skipLoop_eq now cur rest]
    by_cases h : prev.level + 1 < cur.level <;> simp [skipLoop, h]

/-- The skipped-level pass over the whole sequence, in consecutive-pair
form. -/
theorem skippedPart_eq (now : Nat) (seq : List HeadingInfo) :
    skippedPart now seq =
      (consecutivePairs seq).filterMap (fun pc =>
        if pc.1.level + 1 < pc.2.level then
          some (mkSkippedViol now pc.1 pc.2,
            (pc.2.idx, "violation-" ++ Nat.repr now ++ "-" ++ Nat.repr pc.2.index ++ "-skipped"))
        else none) := by
  cases seq with
  | nil => simp [skippedPart, consecutivePairs]
  | cons first rest => simp [skippedPart, consecutivePairs, skipLoop_eq]

/-- C5: for the document whose (non-empty, applicable) heading levels are
1, 2, 4 the heading validator emits exactly one violation — a moderate
skipped-level violation citing previous level 2 and current level 4 — and
in general, walking consecutive pairs of the filtered sequence, a
skipped-level violation is emitted exactly when `level[i] - level[i-1] > 1`,
always moderate and citing both levels. -/
theorem heading_skipped_level_exact :
    (((headingStructureCheck heading124Doc 5).1).map
        (fun v => (v.id, v.severity, v.message)) =
      [("heading-skipped-level-2", Severity.moderate,
        "Heading level skipped from H2 to H4")]) ∧
      ((headingSequence heading124Doc).map (fun h => h.level) = [1, 2, 4]) ∧
      (∀ (d : Doc) (now : Nat),
        ((headingStructureCheck d now).1.filter (fun v => isSkippedId v.id)) =
          ((consecutivePairs (headingSequence d)).filterMap (fun pc =>
            if pc.1.level + 1 < pc.2.level then some (mkSkippedViol now pc.1 pc.2)
            else none))) ∧
      (∀ (now : Nat) (prev cur : HeadingInfo),
        (mkSkippedViol now prev cur).severity = Severity.moderate ∧
          (mkSkippedViol now prev cur).message =
            "Heading level skipped from H" ++ Nat.repr prev.level ++ " to H" ++
              Nat.repr cur.level) := by
  refine ⟨by decide, by decide, ?_, fun now prev cur => ⟨rfl, rfl⟩⟩
  intro d now
  unfold headingStructureCheck
  dsimp only
  simp only [List.map_append, List.filter_append]
  have hEmpty : ((emptyHeadingEntries d now).map (·.1)).filter (fun v => isSkippedId v.id) =
      [] := by
    refine List.filter_eq_nil_iff.2 ?_
    intro v hv
    obtain ⟨x, hx, hxv⟩ := List.mem_map.1 hv
    obtain ⟨e, _, he⟩ := List.mem_filterMap.1 hx
    split at he
    · cases he
      rw [← hxv]
      simp [mkEmptyHeadingViol, isSkippedId_empty]
    · exact absurd he (by simp)
  have hMissing : ((missingH1Part d now).map (·.1)).filter (fun v => isSkippedId v.id) =
      [] := by
    refine List.filter_eq_nil_iff.2 ?_
    intro v hv
    obtain ⟨x, hx, hxv⟩ := List.mem_map.1 hv
    unfold missingH1Part at hx
    split at hx
    · simp at hx
    · split at hx
      · simp at hx
        rw [hx] at hxv
        rw [← hxv]
        simp [mkMissingH1Viol]
        decide
      · simp at hx
  have hMultiple : ((multipleH1Part d now).map (·.1)).filter (fun v => isSkippedId v.id) =
      [] := by
    refine List.filter_eq_nil_iff.2 ?_
    intro v hv
    obtain ⟨x, hx, hxv⟩ := List.mem_map.1 hv
    unfold multipleH1Part at hx
    dsimp only at hx
    split at hx
    · obtain ⟨h1, _, hh⟩ := List.mem_map.1 hx
      rw [← hxv, ← hh]
      simp [mkMultipleH1Viol, isSkippedId_multiple]
    · simp at hx
  have hSkipped : ((skippedPart now (headingSequence d)).map (·.1)).filter
      (fun v => isSkippedId v.id) = (skippedPart now (headingSequence d)).map (·.1) := by
    refine List.filter_eq_self.2 ?_
    intro v hv
    obtain ⟨x, hx, hxv⟩ := List.mem_map.1 hv
    rw [skippedPart_eq] at hx
    obtain ⟨pc, _, hpc⟩ := List.mem_filterMap.1 hx
    split at hpc
    · cases hpc
      rw [← hxv]
      simp [mkSkippedViol, isSkippedId_skipped]
    · exact absurd hpc (by simp)
  rw [hEmpty, hMissing, hMultiple, hSkipped]
  simp only [List.nil_append]
  rw [skippedPart_eq, List.map_filterMap]
  congr 1
  funext pc
  by_cases h : pc.1.level + 1 < pc.2.level <;> simp [h]

/-- Cons equation for association-list lookup, in propositional form. -/
theorem lookup_cons_eq {β : Type} (k a : String) (b : β) (t : List (String × β)) :
    List.lookup k ((a, b) :: t) = if k = a then some b else List.lookup k t := by
  by_cases h : k = a
  · subst h; simp [List.lookup]
  · have hb : (k == a) = false := beq_eq_false_iff_ne.2 h
    simp [List.lookup, hb, h]

/-- A successful association-list lookup yields a member. -/
theorem lookup_mem {β : Type} :
    ∀ (l : List (String × β)) (k : String) (g : β), l.lookup k = some g → (k, g) ∈ l
  | [], _, _, h => by simp [List.lookup] at h
  | (a, b) :: t, k, g, h => by
    rw [lookup_cons_eq] at h
    by_cases hak : k = a
    · subst hak
      rw [if_pos rfl] at h
      cases h
      exact List.mem_cons_self _ _
    · rw [if_neg hak] at h
      exact List.mem_cons_of_mem _ (lookup_mem t k g h)

/-- Keys after a map insertion: unchanged for present keys, appended for
fresh keys. -/
theorem insertAppend_keys {α : Type} :
    ∀ (acc : List (String × List α)) (k : String) (v : α),
      (insertAppend acc k v).map Prod.fst =
        if k ∈ acc.map Prod.fst then acc.map Prod.fst
        else acc.map Prod.fst ++ [k]
  | [], k, v => by simp [insertAppend]
  | (a, vs) :: rest, k, v => by
    by_cases h : a = k
    · subst h
      simp [insertAppend]
    · have hb : (a == k) = false := beq_eq_false_iff_ne.2 h
      have hne : ¬k = a := fun he => h he.symm
      by_cases h2 : k ∈ rest.map Prod.fst <;>
        simp [insertAppend, hb, h2, insertAppend_keys rest k v, hne]

/-- Lookup of the inserted key after a map insertion. -/
theorem insertAppend_lookup_self {α : Type} :
    ∀ (acc : List (String × List α)) (k : String) (v : α),
      (insertAppend acc k v).lookup k = some (((acc.lookup k).getD []) ++ [v])
  | [], k, v => by simp [insertAppend, lookup_cons_eq, List.lookup]
  | (a, vs) :: rest, k, v => by
    by_cases h : a = k
    · subst h
      simp [insertAppend, lookup_cons_eq, List.lookup]
    · have hb : (a == k) = false := beq_eq_false_iff_ne.2 h
      have hne : ¬k = a := fun he => h he.symm
      simp [insertAppend, hb, lookup_cons_eq, hne, insertAppend_lookup_self rest k v]

/-- Lookup of other keys is unchanged by a map insertion. -/
theorem insertAppend_lookup_ne {α : Type} :
    ∀ (acc : List (String × List α)) (k : String) (v : α) (k' : String), k' ≠ k →
      (insertAppend acc k v).lookup k' = acc.lookup k'
  | [], k, v, k', h => by
    rw [insertAppend, lookup_cons_eq, if_neg h]
  | (a, vs) :: rest, k, v, k', h => by
    by_cases ha : a = k
    · subst ha
      have hb : (a == a) = true := by simp
      simp [insertAppend, lookup_cons_eq, h]
    · have hb : (a == k) = false := beq_eq_false_iff_ne.2 ha
      by_cases h2 : k' = a <;>
        simp [insertAppend, hb, lookup_cons_eq, h2, insertAppend_lookup_ne rest k v k' h]

/-- Lookup characterization of the grouping fold, generalized over the
accumulator. -/
theorem buildGroups_go_lookup {α : Type} :
    ∀ (xs : List (String × α)) (acc : List (String × List α)) (k : String),
      ((xs.foldl (fun a kv => insertAppend a kv.1 kv.2) acc).lookup k) =
        match acc.lookup k with
        | some g => some (g ++ (xs.filter (fun p => p.1 == k)).map Prod.snd)
        | none =>
          if k ∈ xs.map Prod.fst then
            some ((xs.filter (fun p => p.1 == k)).map Prod.snd)
          else none
  | [], acc, k => by cases h : acc.lookup k <;> simp [h]
  | (k₀, v₀) :: t, acc, k => by
    rw [List.foldl_cons, buildGroups_go_lookup t (insertAppend acc k₀ v₀) k]
    by_cases hk : k₀ = k
    · subst hk
      rw [insertAppend_lookup_self]
      cases h : acc.lookup k₀ <;> simp [h, List.filter_cons]
    · have hb : (k₀ == k) = false := beq_eq_false_iff_ne.2 hk
      have hne : ¬k = k₀ := fun he => hk he.symm
      rw [insertAppend_lookup_ne acc k₀ v₀ k (fun he => hk he.symm)]
      cases h : acc.lookup k <;>
        by_cases hm : k ∈ List.map Prod.fst t <;>
          simp [h, List.filter_cons, hb, hne, hm, List.mem_cons]

/-- Lookup characterization of the grouping map: the group of key `k` is
the ordered list of values carrying that key. -/
theorem buildGroups_lookup {α : Type} (xs : List (String × α)) (k : String) :
    (buildGroups xs).lookup k =
      if k ∈ xs.map Prod.fst then
        some ((xs.filter (fun p => p.1 == k)).map Prod.snd)
      else none := by
  rw [buildGroups, buildGroups_go_lookup]
  simp [List.lookup]

/-- The keys of the grouping fold are pairwise distinct, generalized over
the accumulator. -/
theorem buildGroups_keys_nodup_go {α : Type} :
    ∀ (xs : List (String × α)) (acc : List (String × List α)),
      (acc.map Prod.fst).Nodup →
      (((xs.foldl (fun a kv => insertAppend a kv.1 kv.2) acc)).map Prod.fst).Nodup
  | [], _, h => h
  | (k₀, v₀) :: t, acc, h => by
    rw [List.foldl_cons]
    refine buildGroups_keys_nodup_go t _ ?_
    rw [insertAppend_keys]
    split
    · exact h
    · rename_i hc
      simp [List.nodup_append, h, hc]

/-- Keys of the populated duplicate-identifier map are pairwise
distinct. -/
theorem buildGroups_keys_nodup {α : Type} (xs : List (String × α)) :
    ((buildGroups xs).map Prod.fst).Nodup :=
  buildGroups_keys_nodup_go xs [] (by simp)

/-- Left cancellation for string concatenation. -/
theorem string_append_left_cancel {p s t : String} (h : p ++ s = p ++ t) : s = t := by
  apply String.ext
  have hd := congrArg String.data h
  rw [String.data_append, String.data_append] at hd
  exact List.append_cancel_left hd

/-- An infix of a list is an infix of any left extension. -/
theorem isInfix_append_left {x b : List Char} (a : List Char) (h : List.IsInfix x b) :
    List.IsInfix x (a ++ b) := by
  obtain ⟨s, t, rfl⟩ := h
  exact ⟨a ++ s, t, by simp⟩

/-- Every member of a joined list occurs inside the join. -/
theorem mem_joinSep_infix :
    ∀ (l : List String) (x : String), x ∈ l → List.IsInfix x.data (joinSep ", " l).data
  | [], x, h => by simp at h
  | [y], x, h => by
    simp at h
    subst h
    exact ⟨[], [], by simp [joinSep]⟩
  | y :: z :: rest, x, h => by
    rcases List.mem_cons.1 h with h1 | h2
    · subst h1
      refine ⟨[], (", " ++ joinSep ", " (z :: rest)).data, ?_⟩
      simp [joinSep, String.data_append]
    · have ih := mem_joinSep_infix (z :: rest) x h2
      have : joinSep ", " (y :: z :: rest) = y ++ ", " ++ joinSep ", " (z :: rest) := rfl
      rw [this, String.data_append]
      exact isInfix_append_left _ ih

/-- C6: for every identifier value shared by two or more
applicability-filtered nodes, the duplicate-identifier validator emits
exactly one serious violation (never one per member), anchored to the
first member of the group, whose description enumerates every member's
tag and class. -/
theorem duplicate_id_single_violation (d : Doc) (now : Nat) (v : String)
    (first : Nat × Node) (rest : List (Nat × Node))
    (hmem : dupMembers d v = first :: rest) (hrest : rest ≠ []) :
    ((validHTMLCheck d now).1.filter (fun viol => viol.id == "duplicate-id-" ++ v) =
        [mkDupViol now v (first :: rest)]) ∧
      ((first.1, "violation-" ++ Nat.repr now ++ "-" ++ v) ∈ (validHTMLCheck d now).2) ∧
      (mkDupViol now v (first :: rest)).severity = Severity.serious ∧
      (mkDupViol now v (first :: rest)).element =
        markerSelector ("violation-" ++ Nat.repr now ++ "-" ++ v) ∧
      (∀ p ∈ (first :: rest).enum,
        List.IsInfix (dupMemberEntry p.1 p.2.2).data
          ((mkDupViol now v (first :: rest)).description.data)) := by
  -- the group of key `v` is present in the map with exactly these members
  have hfne : (idPairs d).filter (fun p => p.1 == v) ≠ [] := by
    intro hn
    rw [dupMembers, hn] at hmem
    simp at hmem
  have hcont : v ∈ (idPairs d).map Prod.fst := by
    cases hfq : (idPairs d).filter (fun p => p.1 == v) with
    | nil => exact absurd hfq hfne
    | cons q qs =>
      have hq : q ∈ (idPairs d).filter (fun p => p.1 == v) := by
        rw [hfq]; exact List.mem_cons_self _ _
      have hq2 := List.mem_filter.1 hq
      have hqv : q.1 = v := by simpa using hq2.2
      exact List.mem_map.2 ⟨q, hq2.1, hqv⟩
  have hlookup : (buildGroups (idPairs d)).lookup v = some (first :: rest) := by
    rw [buildGroups_lookup, if_pos hcont]
    rw [show ((idPairs d).filter (fun p => p.1 == v)).map Prod.snd = dupMembers d v from rfl,
      hmem]
  have hvmem := lookup_mem _ _ _ hlookup
  obtain ⟨s, t, hst⟩ := List.append_of_mem hvmem
  have hnodup := buildGroups_keys_nodup (idPairs d)
  rw [hst] at hnodup
  simp only [List.map_append, List.map_cons] at hnodup
  rw [List.nodup_append] at hnodup
  have hvs : v ∉ s.map Prod.fst := fun h' => hnodup.2.2 h' (List.mem_cons_self _ _)
  have hvt : v ∉ t.map Prod.fst := (List.nodup_cons.1 hnodup.2.1).1
  have hlen : 1 < (first :: rest).length := by
    rcases rest with _ | ⟨r, rs⟩
    · exact absurd rfl hrest
    · simp [List.length_cons]
  -- the per-group function, as used by validHTMLCheck
  have hfilterS : ∀ (part : List (String × List (Nat × Node))), v ∉ part.map Prod.fst →
      ((part.filterMap (fun g =>
          if 1 < g.2.length then
            some (mkDupViol now g.1 g.2,
              ((((g.2.head?).map (fun e => e.1)).getD 0),
                "violation-" ++ Nat.repr now ++ "-" ++ g.1))
          else none)).map (fun x => x.1)).filter
        (fun viol => viol.id == "duplicate-id-" ++ v) = [] := by
    intro part hnv
    refine List.filter_eq_nil_iff.2 ?_
    intro viol hviol
    obtain ⟨x, hx, hxv⟩ := List.mem_map.1 hviol
    obtain ⟨⟨k, g⟩, hkg, hpg⟩ := List.mem_filterMap.1 hx
    have hkne : k ≠ v := fun he => hnv (he ▸ List.mem_map.2 ⟨(k, g), hkg, rfl⟩)
    split at hpg
    · cases hpg
      rw [← hxv]
      simp only [mkDupViol]
      intro hbeq
      exact hkne (string_append_left_cancel (by simpa using hbeq))
    · exact absurd hpg (by simp)
  constructor
  · unfold validHTMLCheck
    dsimp only
    rw [hst, List.filterMap_append, List.filterMap_cons]
    rw [if_pos hlen]
    simp only [List.map_append, List.map_cons, List.filter_append, List.filter_cons]
    rw [hfilterS s hvs, hfilterS t hvt]
    simp [mkDupViol]
  · refine ⟨?_, rfl, rfl, ?_⟩
    · unfold validHTMLCheck
      dsimp only
      rw [hst, List.filterMap_append, List.filterMap_cons]
      rw [if_pos hlen]
      simp
    · intro p hp
      have hx : dupMemberEntry p.1 p.2.2 ∈
          (first :: rest).enum.map (fun e => dupMemberEntry e.1 e.2.2) :=
        List.mem_map.2 ⟨p, hp, rfl⟩
      have hinf := mem_joinSep_infix _ _ hx
      simp only [mkDupViol]
      rw [String.data_append]
      exact isInfix_append_left _ hinf

/-- Witness for C6 on the concrete two-member duplicate group. -/
theorem duplicate_id_single_violation_witness :
    dupMembers dupIdDoc "dup" = [(2, dupNodeA), (3, dupNodeB)] ∧
      ((validHTMLCheck dupIdDoc 5).1.filter
          (fun viol => viol.id == "duplicate-id-" ++ "dup")) =
        [mkDupViol 5 "dup" [(2, dupNodeA), (3, dupNodeB)]] :=
  ⟨by decide,
    (duplicate_id_single_violation dupIdDoc 5 "dup" (2, dupNodeA) [(3, dupNodeB)]
      (by decide) (by decide)).1⟩

end AllInclusive
